import Mathlib

/-!
Verification development for the cloudflare-stream-app repository: a shallow
embedding, in Lean 4, of the live/buffered ingestion and playback-URL
resolution core, together with theorems settling the specification claims.

Conventions of the embedding:
* TypeScript optional fields (`x?: T`, values that may be `undefined`/`null`)
  become `Option T`.
* JavaScript string truthiness (empty string is falsy) is modelled by
  `truthyStr` / `jsOr`.
* `String.prototype.includes` and single-occurrence `String.prototype.replace`
  are modelled by `jsIncludes` / `jsReplaceFirst` over character lists.
* Asynchronous calls to the network appear as explicit oracle arguments
  (the response the call would have produced); a thrown exception is an
  `Except.error`, and a `try`/`catch` is an explicit `match` on it.
* `created` timestamps: the source stores ISO strings and compares
  `new Date(s).getTime()`; the embedding stores the parsed millisecond value
  directly as `Option Int` (`none` = field absent or empty).
-/

/-- JavaScript string truthiness on an optional string: empty strings and
absent values are both falsy. -/
def truthyStr : Option String → Option String
  | some s => if s = "" then none else some s
  | none => none

/-- JavaScript `a || b` for an optional string `a` and a default `b`. -/
def jsOr (a : Option String) (b : String) : String :=
  match truthyStr a with
  | some s => s
  | none => b

/-- Substring test on character lists, mirroring `String.prototype.includes`. -/
def jsIncludesList (pat : List Char) : List Char → Bool
  | [] => pat.isEmpty
  | c :: rest => pat.isPrefixOf (c :: rest) || jsIncludesList pat rest

/-- Replace the first occurrence of `pat` by `sub`, mirroring the
single-string form of `String.prototype.replace` (first occurrence only;
an empty pattern matches at position 0). -/
def jsReplaceFirstList (pat sub : List Char) : List Char → List Char
  | [] => if pat.isEmpty then sub else []
  | c :: rest =>
    if pat.isPrefixOf (c :: rest) then sub ++ (c :: rest).drop pat.length
    else c :: jsReplaceFirstList pat sub rest

/-- `s.includes(pat)` on strings. -/
def jsIncludes (s pat : String) : Bool :=
  jsIncludesList pat.data s.data

/-- `s.replace(pat, sub)` on strings (first occurrence only). -/
def jsReplaceFirst (s pat sub : String) : String :=
  String.mk (jsReplaceFirstList pat.data sub.data s.data)

/-- Playback bundle of an asset (`Video.playback` in `src/types/stream.ts`). -/
structure PlaybackUrls where
  iframe : Option String := none
  hls : Option String := none
  dash : Option String := none
  whep : Option String := none
deriving Repr, DecidableEq

/-- Processing status of an asset (`Video.status` in `src/types/stream.ts`);
the state strings are `pendingupload | downloading | queued | ready | error`. -/
structure VideoStatus where
  state : Option String := none
deriving Repr, DecidableEq

/-- An asset record (`Video` in `src/types/stream.ts`), restricted to the
fields the ingestion/resolution core reads or writes.  `created` holds the
parsed `new Date(created).getTime()` value. -/
structure Video where
  uid : String
  thumbnail : Option String := none
  readyToStream : Option Bool := none
  status : Option VideoStatus := none
  created : Option Int := none
  playback : Option PlaybackUrls := none
  isLive : Option Bool := none
  liveInputId : Option String := none
  isLiveRecording : Option Bool := none
deriving Repr, DecidableEq

/-- A live input record (`StreamInput` in `src/types/stream.ts`), restricted
to the field the library aggregator reads. -/
structure LiveInput where
  uid : Option String := none
deriving Repr, DecidableEq

/-- Default thumbnail URL construction used by the playback resolver
(`src/app/api/videos/list/route.ts`, lines 67 and 70). -/
def thumbDefault (subdomain id : String) : String :=
  "https://" ++ subdomain ++ "/" ++ id ++ "/thumbnails/thumbnail.jpg?time=1s&height=270"

/-- Thumbnail resolution of the playback resolver, mirroring
`src/app/api/videos/list/route.ts` lines 62-71 (the same logic appears in the
single-video route).  Called only when the customer subdomain is configured
(truthy), with `signedToken` already normalised to `none` when token issuance
failed or returned a falsy string. -/
def resolveThumbnail (subdomain uid : String) (signedToken : Option String)
    (thumb : Option String) : Option String :=
  match signedToken with
  | some tok =>
    match thumb with
    | some t =>
      if t = "" then some (thumbDefault subdomain tok)
      else if jsIncludes t uid then some (jsReplaceFirst t uid tok)
      else some (thumbDefault subdomain tok)
    | none => some (thumbDefault subdomain tok)
  | none =>
    match thumb with
    | some t => if t = "" then some (thumbDefault subdomain uid) else some t
    | none => some (thumbDefault subdomain uid)

/-- Playback-URL enrichment of one finished upload, mirroring
`src/app/api/videos/list/route.ts` lines 49-89.  `tokenRes` is the outcome of
the awaited `generateSignedToken(video.uid)` call; the source catches its
failure and falls back to the raw uid, so the error branch never escapes. -/
def enhanceVideo (customerSubdomain : Option String)
    (tokenRes : Except String String) (video : Video) : Video :=
  match truthyStr customerSubdomain with
  | none => video
  | some sub =>
    let playback := video.playback.getD {}
    let signedToken : Option String :=
      truthyStr (match tokenRes with | .ok t => some t | .error _ => none)
    let playbackId := signedToken.getD video.uid
    let thumbnailUrl := resolveThumbnail sub video.uid signedToken video.thumbnail
    let whepUrl := "https://" ++ sub ++ "/" ++ playbackId ++ "/webRTC/play"
    { video with
      thumbnail := thumbnailUrl,
      playback := some {
        iframe := some (jsOr playback.iframe
          ("https://" ++ sub ++ "/" ++ playbackId ++ "/iframe")),
        hls := some (jsOr playback.hls
          ("https://" ++ sub ++ "/" ++ playbackId ++ "/manifest/video.m3u8")),
        dash := some (jsOr playback.dash
          ("https://" ++ sub ++ "/" ++ playbackId ++ "/manifest/video.mpd")),
        whep := match truthyStr (some whepUrl) with
                | some w => some w
                | none => playback.whep } }

/-- Playback-URL enrichment of one live-input recording, mirroring
`src/app/api/videos/list/route.ts` lines 94-145.  Unlike `enhanceVideo`, the
whep field is passed through unchanged and `readyToStream` defaults to
`true` via `??`. -/
def enhanceRecording (customerSubdomain : Option String)
    (tokenRes : Except String String) (recording : Video) : Video :=
  let recording := { recording with isLive := some false }
  match truthyStr customerSubdomain with
  | none =>
    { recording with isLive := some false,
                     readyToStream := some (recording.readyToStream.getD true) }
  | some sub =>
    let playback := recording.playback.getD {}
    let signedToken : Option String :=
      truthyStr (match tokenRes with | .ok t => some t | .error _ => none)
    let playbackId := signedToken.getD recording.uid
    let thumbnailUrl := resolveThumbnail sub recording.uid signedToken recording.thumbnail
    { recording with
      isLive := some false,
      readyToStream := some (recording.readyToStream.getD true),
      thumbnail := thumbnailUrl,
      playback := some {
        iframe := some (jsOr playback.iframe
          ("https://" ++ sub ++ "/" ++ playbackId ++ "/iframe")),
        hls := some (jsOr playback.hls
          ("https://" ++ sub ++ "/" ++ playbackId ++ "/manifest/video.m3u8")),
        dash := some (jsOr playback.dash
          ("https://" ++ sub ++ "/" ++ playbackId ++ "/manifest/video.mpd")),
        whep := playback.whep } }

/-- Readiness test applied to each fetched recording, mirroring
`src/app/api/videos/list/route.ts` lines 20-24:
`status?.state === "ready" || readyToStream === true`. -/
def isReadyRecording (r : Video) : Bool :=
  (r.status.bind VideoStatus.state == some "ready") || (r.readyToStream == some true)

/-- Collection of recordings across all live inputs, mirroring the loop at
`src/app/api/videos/list/route.ts` lines 13-37.  `recs` is the (total)
result of `getLiveInputRecordings` per live-input uid; the surrounding
`try`/`catch` in the loop is a no-op because that function never throws. -/
def collectRecordings (liveInputs : List LiveInput) (recs : String → List Video) :
    List Video :=
  (liveInputs.map fun liveInput =>
    match truthyStr liveInput.uid with
    | some u =>
      ((recs u).filter isReadyRecording).map fun recording =>
        { recording with
          isLive := some false,
          isLiveRecording := some true,
          liveInputId := liveInput.uid }
    | none => []).flatten

/-- Deduplication of recordings against finished uploads, mirroring
`src/app/api/videos/list/route.ts` lines 39-43. -/
def dedupRecordings (videos allRecordings : List Video) : List Video :=
  let existingVideoUids := videos.map Video.uid
  allRecordings.filter fun recording => !existingVideoUids.contains recording.uid

/-- Sort key of the final merge: `a.created ? new Date(a.created).getTime() : 0`
(`src/app/api/videos/list/route.ts` lines 150-151). -/
def dateKey (v : Video) : Int :=
  match v.created with
  | some t => t
  | none => 0

/-- Comparator relation of the final merge, descending by `dateKey`
(`src/app/api/videos/list/route.ts` lines 149-153: `bDate - aDate`). -/
def byCreatedDesc (a b : Video) : Prop :=
  dateKey b ≤ dateKey a

instance : DecidableRel byCreatedDesc :=
  fun a b => inferInstanceAs (Decidable (dateKey b ≤ dateKey a))

instance : IsTotal Video byCreatedDesc :=
  ⟨fun a b => (le_total (dateKey b) (dateKey a)).imp id id⟩

instance : IsTrans Video byCreatedDesc :=
  ⟨fun _ _ _ hab hbc => le_trans hbc hab⟩

/-- The whole `GET /api/videos/list` pipeline
(`src/app/api/videos/list/route.ts` lines 5-155): collect ready recordings per
live input, deduplicate against finished uploads, enrich both populations with
playback URLs, merge, and sort descending by creation time.  `tok` is the
per-uid outcome of `generateSignedToken`; `recs` the per-live-input result of
`getLiveInputRecordings`.  JavaScript `Array.prototype.sort` is stable with a
consistent comparator, so it is embedded as insertion sort over the
comparator relation. -/
def listVideosGET (customerSubdomain : Option String)
    (tok : String → Except String String) (videos : List Video)
    (liveInputs : List LiveInput) (recs : String → List Video) : List Video :=
  let allRecordings := collectRecordings liveInputs recs
  let uniqueRecordings := dedupRecordings videos allRecordings
  let enhancedVideos := videos.map fun v => enhanceVideo customerSubdomain (tok v.uid) v
  let enhancedRecordings :=
    uniqueRecordings.map fun r => enhanceRecording customerSubdomain (tok r.uid) r
  List.insertionSort byCreatedDesc (enhancedVideos ++ enhancedRecordings)

/-- Outcome of one poll attempt of the readiness poller: what the status fetch
at `src/components/streaming/StreamRecorder.tsx` lines 27-53 observed.
`notReady` covers every successful response that reports neither readiness nor
an error processing state; `transportFail` covers a failed fetch, a non-2xx
status, or a body that fails to parse (all reach the `catch`). -/
inductive PollOutcome where
  | ready
  | errorState
  | notReady
  | transportFail
deriving Repr, DecidableEq

/-- Terminal condition reached by the readiness poller. -/
inductive PollResult where
  | captionsTriggered
  | stoppedOnError
  | exhausted
deriving Repr, DecidableEq

/-- The configured poll bound of `pollVideoReadinessAndGenerateCaptions`
(`src/components/streaming/StreamRecorder.tsx` line 14). -/
def maxAttempts : Nat := 60

/-- One round of `checkAndGenerate` (`src/components/streaming/StreamRecorder.tsx`
lines 19-64), recursing while `attempts < maxAttempts`.  `made` is the number
of attempts already made, the fuel is `maxAttempts - made`; the first
component of the result is the total number of status fetches performed. -/
def pollAux (responses : Nat → PollOutcome) (made : Nat) : Nat → Nat × PollResult
  | 0 => (made, .exhausted)
  | fuel + 1 =>
    match responses made with
    | .ready => (made + 1, .captionsTriggered)
    | .errorState => (made + 1, .stoppedOnError)
    | .notReady => pollAux responses (made + 1) fuel
    | .transportFail => pollAux responses (made + 1) fuel

/-- The readiness poller `pollVideoReadinessAndGenerateCaptions`
(`src/components/streaming/StreamRecorder.tsx` lines 13-67), as a function of
the sequence of poll outcomes: number of status fetches performed, and how the
loop ended. -/
def pollVideoReadiness (responses : Nat → PollOutcome) : Nat × PollResult :=
  pollAux responses 0 maxAttempts

/-- Identification of a transport failure with an ordinary not-ready round:
the `catch` at lines 59-63 reschedules exactly like the not-ready path. -/
def asTransient : PollOutcome → PollOutcome
  | .transportFail => .notReady
  | o => o

/-- Account-level authorization configuration read from the environment
(`src/lib/cloudflare.ts` lines 3-4). -/
structure CloudflareConfig where
  accountId : Option String := none
  apiToken : Option String := none
deriving Repr, DecidableEq

/-- The guard of `cloudflareRequest` (`src/lib/cloudflare.ts` line 11):
both credentials present and truthy. -/
def hasCredentials (cfg : CloudflareConfig) : Bool :=
  (truthyStr cfg.accountId).isSome && (truthyStr cfg.apiToken).isSome

/-- Parsed JSON value, restricted to the shapes the gateway inspects: an
array of asset records, an object with an optional `result` field, or any
other value with its JavaScript truthiness. -/
inductive JsonVal where
  | jarr (items : List Video)
  | jobj (result : Option JsonVal)
  | jother (truthy : Bool)

/-- JavaScript truthiness of a parsed JSON value (arrays and objects are
always truthy). -/
def jsonTruthy : JsonVal → Bool
  | .jarr _ => true
  | .jobj _ => true
  | .jother t => t

/-- The envelope unwrapping `data.result || data` used at
`src/lib/cloudflare.ts` lines 46 and 106. -/
def resultOrSelf (v : JsonVal) : JsonVal :=
  match v with
  | .jobj (some r) => if jsonTruthy r then r else v
  | _ => v

/-- What the remote platform answered to one `cloudflareRequest` fetch:
whether the response was 2xx, its status code, the first error message of the
parsed error body (the source falls back to `{ errors: [] }` when that body
fails to parse), the empty-body header conditions of line 35, the body text,
and its parse result (`none` when `JSON.parse` throws). -/
structure CfResponse where
  ok : Bool
  status : Nat
  errorsFirstMsg : Option String
  noBodyHeaders : Bool
  bodyText : String
  parsed : Option JsonVal

/-- The shared gateway client `cloudflareRequest` (`src/lib/cloudflare.ts`
lines 7-53).  Returns the normalized payload (or the normalized error
message) together with the number of network requests performed. -/
def cloudflareRequest (cfg : CloudflareConfig) (resp : CfResponse) :
    Except String JsonVal × Nat :=
  if !hasCredentials cfg then
    (.error "Cloudflare credentials not configured", 0)
  else
    let result : Except String JsonVal :=
      if !resp.ok then
        .error (jsOr resp.errorsFirstMsg ("HTTP error! status: " ++ toString resp.status))
      else if resp.noBodyHeaders then .ok (.jobj none)
      else if resp.bodyText.trim = "" then .ok (.jobj none)
      else
        match resp.parsed with
        | some data => .ok (resultOrSelf data)
        | none => .ok (.jobj none)
    (result, 1)

/-- `listVideos` (`src/lib/cloudflare.ts` lines 182-185): one
`cloudflareRequest` followed by `Array.isArray(videos) ? videos : []`. -/
def listVideosOp (cfg : CloudflareConfig) (resp : CfResponse) :
    Except String (List Video) × Nat :=
  let r := cloudflareRequest cfg resp
  (r.1.map fun v => match v with | .jarr vs => vs | _ => [], r.2)

/-- What the remote platform answered to the direct fetch inside
`getLiveInputRecordings`: `netFail` when the fetch itself rejects, otherwise
the response with its 2xx flag, status, error body text, and `response.json()`
outcome (`none` when it throws). -/
inductive RecFetchOutcome where
  | netFail
  | resp (ok : Bool) (status : Nat) (bodyText : String) (json : Option JsonVal)

/-- The `try` body of `getLiveInputRecordings` (`src/lib/cloudflare.ts`
lines 86-108): 404 yields an empty list, any other non-2xx status throws,
then the payload is unwrapped and non-arrays collapse to the empty list. -/
def recordingsAttempt : RecFetchOutcome → Except String (List Video)
  | .netFail => .error "fetch failed"
  | .resp ok status bodyText json =>
    if !ok then
      if status = 404 then .ok []
      else .error ("Failed to fetch recordings: " ++ toString status ++ " " ++ bodyText)
    else
      match json with
      | none => .error "invalid json body"
      | some rawData =>
        match resultOrSelf rawData with
        | .jarr videos => .ok videos
        | _ => .ok []

/-- `getLiveInputRecordings` (`src/lib/cloudflare.ts` lines 85-113).  The
source interpolates the environment credentials straight into the URL with no
guard, so the fetch is attempted for every configuration: the second
component (number of network requests) is always 1, and the surrounding
`catch` converts every thrown error into an empty list. -/
def getLiveInputRecordingsOp (_cfg : CloudflareConfig) (o : RecFetchOutcome) :
    List Video × Nat :=
  (match recordingsAttempt o with
   | .ok videos => videos
   | .error _ => [], 1)

/-- The `/api/stream/create` response consumed by `uploadRecording`
(`src/components/streaming/StreamRecorder.tsx` lines 420-435). -/
structure CreateStreamResult where
  success : Bool
  errMsg : Option String
  uploadURL : Option String
  uid : String
deriving Repr, DecidableEq

/-- The upload path of `uploadRecording`
(`src/components/streaming/StreamRecorder.tsx` lines 402-474): result of the
attempt (the uploaded asset uid, or the thrown error message) paired with
whether the network upload call (`uploadVideoChunk`) was performed.
`blobSize` is `videoBlob.size`; `uploadNet` is the outcome the upload call
would produce.  The post-upload status check (lines 453-465) swallows every
error inside its own `try`/`catch`, including the one it throws itself, so it
has no effect on the outcome and is omitted. -/
def uploadRecording (create : CreateStreamResult) (blobSize : Nat)
    (uploadNet : Except String Unit) : Except String String × Bool :=
  if !create.success then
    (.error (jsOr create.errMsg "Failed to get upload URL"), false)
  else
    match truthyStr create.uploadURL with
    | none => (.error "Failed to get upload URL", false)
    | some _url =>
      if blobSize = 0 then
        (.error "No video data recorded. Please record a video before uploading.", false)
      else
        match uploadNet with
        | .ok _ => (.ok create.uid, true)
        | .error e => (.error e, true)

/-- Connection status of the live transport
(`src/components/streaming/StreamRecorder.tsx` line 149). -/
inductive ConnStatus where
  | disconnected
  | connecting
  | connected
  | error
deriving Repr, DecidableEq

/-- State of the `StreamRecorder` component that the live transport reads and
writes: the React state flags, the module-level refs (`streamRef`,
`whipClientRef`), and a counter of successful capture-device acquisitions
(`navigator.mediaDevices.getUserMedia` calls that resolved). -/
structure LiveState where
  isStreaming : Bool := false
  isConnecting : Bool := false
  isPaused : Bool := false
  connectionStatus : ConnStatus := .disconnected
  errMsg : Option String := none
  liveInputId : Option String := none
  hasStreamRef : Bool := false
  hasWhipRef : Bool := false
  deviceAcquisitions : Nat := 0
deriving Repr, DecidableEq

/-- Outcomes of the awaited calls inside `startStreaming`: device acquisition,
live-input provisioning (`/api/stream/create`), the `webRTC?.url` field of the
provisioned input, its uid, and the WHIP ingest. -/
structure StartOutcomes where
  gumOk : Bool
  createSuccess : Bool
  createError : Option String
  webRTCUrl : Option String
  liveUid : Option String
  ingestOk : Bool
deriving Repr, DecidableEq

/-- The `catch` block of `startStreaming`
(`src/components/streaming/StreamRecorder.tsx` lines 296-315): record the
error, mark the transport errored, destroy the WHIP client and release the
capture device if they were acquired. -/
def startFailCleanup (s : LiveState) (msg : String) : LiveState :=
  { s with errMsg := some msg, isConnecting := false, connectionStatus := .error,
           hasWhipRef := false, hasStreamRef := false }

/-- The body of `startStreaming`
(`src/components/streaming/StreamRecorder.tsx` lines 232-316): acquire the
capture device, provision a live input, extract the ingest endpoint (its
absence is fatal), open the WHIP ingest, and mark the transport connected;
every failure flows through `startFailCleanup`. -/
def startStreaming (s : LiveState) (o : StartOutcomes) : LiveState :=
  let s := { s with errMsg := none, isConnecting := true,
                    connectionStatus := .connecting }
  if !o.gumOk then startFailCleanup s "Failed to start streaming"
  else
    let s := { s with hasStreamRef := true,
                      deviceAcquisitions := s.deviceAcquisitions + 1 }
    if !o.createSuccess then
      startFailCleanup s (jsOr o.createError "Failed to create live input")
    else
      match truthyStr o.webRTCUrl with
      | none => startFailCleanup s "WebRTC URL not found in live input response"
      | some _url =>
        let s := { s with liveInputId := o.liveUid, hasWhipRef := true }
        if !o.ingestOk then startFailCleanup s "Failed to start streaming"
        else { s with isStreaming := true, isConnecting := false,
                      connectionStatus := .connected }

/-- The only entry point to `startStreaming` in the component: the start
button (`src/components/streaming/StreamRecorder.tsx` lines 625-634), which
is rendered only while `!isStreaming` and disabled while `isConnecting`, so a
click dispatches `startStreaming` only from an idle transport. -/
def clickStartStreaming (s : LiveState) (o : StartOutcomes) : LiveState :=
  if s.isStreaming then s
  else if s.isConnecting then s
  else startStreaming s o

/-- Agreement between the connection status and the boolean flags the start
button is gated on: `connected` is only ever set together with
`isStreaming := true`, and `connecting` together with `isConnecting := true`. -/
def statusFlagsAgree (s : LiveState) : Prop :=
  (s.connectionStatus = .connected → s.isStreaming = true) ∧
  (s.connectionStatus = .connecting → s.isConnecting = true)

theorem String.length_zero_eq_empty (s : String) (h : s.length = 0) : s = "" := by
  cases s with
  | mk data =>
    cases data with
    | nil => rfl
    | cons c cs => simp [String.length] at h

theorem append_ne_empty_of_left (s t : String) (hs : s ≠ "") : (s ++ t) ≠ "" := by
  intro h
  have h2 := congrArg String.length h
  rw [String.length_append] at h2
  have h0 : ("" : String).length = 0 := rfl
  rw [h0] at h2
  exact hs (String.length_zero_eq_empty s (by omega))

theorem thumbDefault_ne_empty (subdomain id : String) :
    thumbDefault subdomain id ≠ "" := by
  unfold thumbDefault
  exact append_ne_empty_of_left _ _ (append_ne_empty_of_left _ _
    (append_ne_empty_of_left _ _ (append_ne_empty_of_left _ _ (by decide))))

theorem truthyStr_some_of_ne (s : String) (hs : s ≠ "") :
    truthyStr (some s) = some s := by
  simp [truthyStr, hs]

theorem jsOr_some_of_ne (s b : String) (hs : s ≠ "") : jsOr (some s) b = s := by
  simp [jsOr, truthyStr_some_of_ne s hs]

theorem jsOr_ne_empty (a : Option String) (b : String) (hb : b ≠ "") :
    jsOr a b ≠ "" := by
  rcases a with _ | s
  · exact hb
  · by_cases hs : s = ""
    · simpa [jsOr, truthyStr, hs] using hb
    · simpa [jsOr_some_of_ne s b hs] using hs

theorem resolveThumbnail_none_ne_empty (subdomain uid : String)
    (thumb : Option String) :
    ∃ t, resolveThumbnail subdomain uid none thumb = some t ∧ t ≠ "" := by
  rcases thumb with _ | t
  · exact ⟨_, rfl, thumbDefault_ne_empty subdomain uid⟩
  · by_cases ht : t = ""
    · exact ⟨_, by simp [resolveThumbnail, ht], thumbDefault_ne_empty subdomain uid⟩
    · exact ⟨t, by simp [resolveThumbnail, ht], ht⟩

theorem resolveThumbnail_none_idem (subdomain uid : String)
    (thumb : Option String) :
    resolveThumbnail subdomain uid none (resolveThumbnail subdomain uid none thumb) =
      resolveThumbnail subdomain uid none thumb := by
  obtain ⟨t, ht, hne⟩ := resolveThumbnail_none_ne_empty subdomain uid thumb
  rw [ht]
  simp [resolveThumbnail, hne]

theorem pollAux_fst_le (responses : Nat → PollOutcome) (fuel : Nat) :
    ∀ made, (pollAux responses made fuel).1 ≤ made + fuel := by
  induction fuel with
  | zero => intro made; simp [pollAux]
  | succ n ih =>
    intro made
    simp only [pollAux]
    cases hr : responses made with
    | ready =>
      show made + 1 ≤ made + (n + 1)
      omega
    | errorState =>
      show made + 1 ≤ made + (n + 1)
      omega
    | notReady => exact le_trans (ih (made + 1)) (by omega)
    | transportFail => exact le_trans (ih (made + 1)) (by omega)

theorem pollAux_exhausts (responses : Nat → PollOutcome) (fuel : Nat) :
    ∀ made, (∀ k, made ≤ k → k < made + fuel →
        responses k ≠ .ready ∧ responses k ≠ .errorState) →
      pollAux responses made fuel = (made + fuel, .exhausted) := by
  induction fuel with
  | zero => intro made _; simp [pollAux]
  | succ n ih =>
    intro made h
    have hm := h made (le_refl _) (by omega)
    simp only [pollAux]
    cases hr : responses made with
    | ready => exact absurd hr hm.1
    | errorState => exact absurd hr hm.2
    | notReady =>
      have harith : made + 1 + n = made + (n + 1) := by omega
      rw [ih (made + 1) (fun k hk1 hk2 => h k (by omega) (by omega)), harith]
    | transportFail =>
      have harith : made + 1 + n = made + (n + 1) := by omega
      rw [ih (made + 1) (fun k hk1 hk2 => h k (by omega) (by omega)), harith]

theorem pollAux_transient (responses : Nat → PollOutcome) (fuel : Nat) :
    ∀ made, pollAux responses made fuel =
      pollAux (fun k => asTransient (responses k)) made fuel := by
  induction fuel with
  | zero => intro made; rfl
  | succ n ih =>
    intro made
    simp only [pollAux]
    cases hr : responses made <;> simp [hr, asTransient, ih]

/-- C2: the readiness poller performs at most `maxAttempts = 60` status-fetch
attempts; when no poll observes readiness or an error state within those
attempts, it performs exactly 60 fetches, stops exhausted, and makes no
further network calls (the first component counts every status fetch of the
run); and a transport failure is treated exactly like an ordinary not-ready
round, consuming one attempt instead of aborting the loop. -/
theorem c2_poller_bounded (responses : Nat → PollOutcome) :
    (pollVideoReadiness responses).1 ≤ maxAttempts ∧
    ((∀ k, k < maxAttempts → responses k ≠ .ready ∧ responses k ≠ .errorState) →
      pollVideoReadiness responses = (maxAttempts, .exhausted)) ∧
    pollVideoReadiness responses =
      pollVideoReadiness (fun k => asTransient (responses k)) := by
  refine ⟨?_, ?_, ?_⟩
  · simpa using pollAux_fst_le responses maxAttempts 0
  · intro h
    simpa using pollAux_exhausts responses maxAttempts 0
      (fun k _ hk => h k (by simpa using hk))
  · exact pollAux_transient responses maxAttempts 0

/-- C2 witness: a run whose every poll attempt hits a transport failure makes
exactly 60 status fetches and ends exhausted. -/
theorem c2_poller_bounded_witness :
    pollVideoReadiness (fun _ => .transportFail) = (60, .exhausted) :=
  (c2_poller_bounded (fun _ => PollOutcome.transportFail)).2.1
    (fun _ _ => ⟨by decide, by decide⟩)

/-- C3 counterexample: with both credentials absent, fetching the recordings
of a live input still attempts its network request (the request count is 1,
not 0) and surfaces no configuration error at all (it returns an ordinary
empty result), so the claim that every Platform Gateway operation fails
with a configuration error before any network request is false for
`getLiveInputRecordings`. -/
theorem c3_counterexample :
    hasCredentials { accountId := none, apiToken := none } = false ∧
    (getLiveInputRecordingsOp { accountId := none, apiToken := none } .netFail).2 = 1 ∧
    (getLiveInputRecordingsOp { accountId := none, apiToken := none } .netFail).1 = [] :=
  ⟨rfl, rfl, rfl⟩

/-- C3 (amended): every Platform Gateway operation routed through
`cloudflareRequest` (all of them except `getLiveInputRecordings`) fails with
the configuration error, performing zero network requests, when the account
id or the API token is absent; `getLiveInputRecordings` is the exception:
it performs its one network request regardless of the configuration. -/
theorem c3_config_guard (cfg : CloudflareConfig) (resp : CfResponse)
    (o : RecFetchOutcome) (h : hasCredentials cfg = false) :
    cloudflareRequest cfg resp = (.error "Cloudflare credentials not configured", 0) ∧
    listVideosOp cfg resp = (.error "Cloudflare credentials not configured", 0) ∧
    (getLiveInputRecordingsOp cfg o).2 = 1 := by
  refine ⟨?_, ?_, rfl⟩
  · simp [cloudflareRequest, h]
  · simp [listVideosOp, cloudflareRequest, h, Except.map]

/-- C3 witness: the shared gateway client at a concrete absent configuration
fails with the configuration error and performs no network request. -/
theorem c3_config_guard_witness :
    cloudflareRequest { accountId := none, apiToken := some "tok" }
        { ok := true, status := 200, errorsFirstMsg := none, noBodyHeaders := false,
          bodyText := "x", parsed := none } =
      (.error "Cloudflare credentials not configured", 0) :=
  (c3_config_guard { accountId := none, apiToken := some "tok" }
    { ok := true, status := 200, errorsFirstMsg := none, noBodyHeaders := false,
      bodyText := "x", parsed := none } .netFail rfl).1

/-- C4: for every successful upload-session creation carrying a non-empty
upload URL, a zero-byte payload is rejected with the validation error and the
network upload call is not performed (the second component records whether
`uploadVideoChunk` ran). -/
theorem c4_zero_payload_rejected (create : CreateStreamResult) (url : String)
    (uploadNet : Except String Unit) (hs : create.success = true)
    (hu : create.uploadURL = some url) (hne : url ≠ "") :
    uploadRecording create 0 uploadNet =
      (.error "No video data recorded. Please record a video before uploading.", false) := by
  simp [uploadRecording, hs, hu, truthyStr, hne]

/-- C4 witness: a concrete zero-byte upload attempt against a non-empty
upload URL is rejected without performing the upload call. -/
theorem c4_zero_payload_rejected_witness :
    uploadRecording
      { success := true, errMsg := none,
        uploadURL := some "https://up.example/abc123", uid := "abc123" }
      0 (.ok ()) =
      (.error "No video data recorded. Please record a video before uploading.", false) :=
  c4_zero_payload_rejected _ "https://up.example/abc123" _ rfl rfl (by decide)

/-- C10: fetching the recordings of a live input is total: a network failure,
any non-2xx status (404 included), a body that fails to parse, and a payload
that is not an array (even after unwrapping the result envelope) all yield
the empty list rather than an error. -/
theorem c10_recordings_total (cfg : CloudflareConfig) (status : Nat)
    (bodyText : String) (json : Option JsonVal) (jv : JsonVal)
    (hna : ∀ videos, resultOrSelf jv ≠ JsonVal.jarr videos) :
    (getLiveInputRecordingsOp cfg .netFail).1 = [] ∧
    (getLiveInputRecordingsOp cfg (.resp false status bodyText json)).1 = [] ∧
    (getLiveInputRecordingsOp cfg (.resp true status bodyText none)).1 = [] ∧
    (getLiveInputRecordingsOp cfg (.resp true status bodyText (some jv))).1 = [] := by
  refine ⟨rfl, ?_, rfl, ?_⟩
  · by_cases h404 : status = 404 <;>
      simp [getLiveInputRecordingsOp, recordingsAttempt, h404]
  · cases hres : resultOrSelf jv with
    | jarr videos => exact absurd hres (hna videos)
    | jobj r => simp [getLiveInputRecordingsOp, recordingsAttempt, hres]
    | jother t => simp [getLiveInputRecordingsOp, recordingsAttempt, hres]

/-- C10 witness: a concrete 2xx response whose payload is a non-array value
yields the empty list. -/
theorem c10_recordings_total_witness :
    (getLiveInputRecordingsOp { accountId := some "acc", apiToken := some "tok" }
        (.resp true 200 "notjson" (some (.jother true)))).1 = [] :=
  (c10_recordings_total { accountId := some "acc", apiToken := some "tok" }
    200 "notjson" none (.jother true) (fun _ h => JsonVal.noConfusion h)).2.2.2

/-- C9: clicking start while the live transport is connected (equivalently,
`isStreaming` is set) or connecting leaves the component state unchanged and,
in particular, acquires no second capture-device handle: the start button is
rendered only while not streaming and is disabled while connecting. -/
theorem c9_start_rejected_when_active (s : LiveState) (o : StartOutcomes)
    (hwf : statusFlagsAgree s)
    (h : s.connectionStatus = .connected ∨ s.connectionStatus = .connecting) :
    clickStartStreaming s o = s ∧
    (clickStartStreaming s o).deviceAcquisitions = s.deviceAcquisitions := by
  have heq : clickStartStreaming s o = s := by
    rcases h with h | h
    · simp [clickStartStreaming, hwf.1 h]
    · have hc := hwf.2 h
      by_cases hs : s.isStreaming <;> simp [clickStartStreaming, hs, hc]
  exact ⟨heq, by rw [heq]⟩

/-- C9 witness: from a concrete connected state holding one device handle, a
start click with every remote call poised to succeed changes nothing and
keeps the device-acquisition count at 1. -/
theorem c9_start_rejected_when_active_witness :
    clickStartStreaming
        { isStreaming := true, connectionStatus := .connected,
          hasStreamRef := true, hasWhipRef := true, deviceAcquisitions := 1 }
        { gumOk := true, createSuccess := true, createError := none,
          webRTCUrl := some "https://ingest.example/whip", liveUid := some "li1",
          ingestOk := true } =
      { isStreaming := true, connectionStatus := .connected,
        hasStreamRef := true, hasWhipRef := true, deviceAcquisitions := 1 } :=
  (c9_start_rejected_when_active
    { isStreaming := true, connectionStatus := .connected,
      hasStreamRef := true, hasWhipRef := true, deviceAcquisitions := 1 }
    { gumOk := true, createSuccess := true, createError := none,
      webRTCUrl := some "https://ingest.example/whip", liveUid := some "li1",
      ingestOk := true }
    ⟨fun _ => rfl, fun hc => nomatch hc⟩ (Or.inl rfl)).1

theorem startStreaming_statusFlagsAgree (s : LiveState) (o : StartOutcomes) :
    statusFlagsAgree (startStreaming s o) := by
  unfold startStreaming startFailCleanup statusFlagsAgree
  split
  · exact ⟨(fun h => nomatch h), (fun h => nomatch h)⟩
  · split
    · exact ⟨(fun h => nomatch h), (fun h => nomatch h)⟩
    · split
      · exact ⟨(fun h => nomatch h), (fun h => nomatch h)⟩
      · split
        · exact ⟨(fun h => nomatch h), (fun h => nomatch h)⟩
        · exact ⟨(fun _ => rfl), (fun h => nomatch h)⟩

theorem clickStartStreaming_statusFlagsAgree (s : LiveState) (o : StartOutcomes)
    (hwf : statusFlagsAgree s) :
    statusFlagsAgree (clickStartStreaming s o) := by
  unfold clickStartStreaming
  split
  · exact hwf
  · split
    · exact hwf
    · exact startStreaming_statusFlagsAgree s o

theorem url5_ne_empty (a b c d e : String) (ha : a ≠ "") :
    (a ++ b ++ c ++ d ++ e) ≠ "" :=
  append_ne_empty_of_left _ _ (append_ne_empty_of_left _ _
    (append_ne_empty_of_left _ _ (append_ne_empty_of_left _ _ ha)))

/-- C8 counterexample: with a signed token obtained and an existing thumbnail
that does not contain the raw asset id, the thumbnail is not left as-is: it
is replaced by the default tokenized thumbnail URL, so the claim's
"otherwise the thumbnail is left as-is" case is false. -/
theorem c8_counterexample :
    resolveThumbnail "cust.example" "v1" (some "tok_42")
        (some "https://other.example/pic.jpg") =
      some "https://cust.example/tok_42/thumbnails/thumbnail.jpg?time=1s&height=270" ∧
    resolveThumbnail "cust.example" "v1" (some "tok_42")
        (some "https://other.example/pic.jpg") ≠
      some "https://other.example/pic.jpg" :=
  ⟨by decide, by decide⟩

/-- C8 (amended): when a signed token is obtained and the existing thumbnail
contains the raw asset id, the token is substituted for the raw id in place
(first occurrence, rest of the URL preserved); when no thumbnail exists, a
default thumbnail URL is constructed from the subdomain and the playback
identifier (the token when obtained, otherwise the raw id); when no token was
obtained and a thumbnail exists, it is left as-is; but when a token was
obtained and the existing thumbnail does not contain the raw id, the
thumbnail is replaced by the default tokenized URL rather than left as-is. -/
theorem c8_thumbnail_rules (sub uid tok t : String) :
    (t ≠ "" → jsIncludes t uid = true →
      resolveThumbnail sub uid (some tok) (some t) = some (jsReplaceFirst t uid tok)) ∧
    resolveThumbnail sub uid (some tok) none = some (thumbDefault sub tok) ∧
    resolveThumbnail sub uid none none = some (thumbDefault sub uid) ∧
    (t ≠ "" → resolveThumbnail sub uid none (some t) = some t) ∧
    (t ≠ "" → jsIncludes t uid = false →
      resolveThumbnail sub uid (some tok) (some t) = some (thumbDefault sub tok)) := by
  refine ⟨?_, rfl, rfl, ?_, ?_⟩
  · intro ht hinc
    simp [resolveThumbnail, ht, hinc]
  · intro ht
    simp [resolveThumbnail, ht]
  · intro ht hinc
    simp [resolveThumbnail, ht, hinc]

/-- C8 witness: the substitution scenario at concrete values, with a query
parameter preserved in place. -/
theorem c8_thumbnail_rules_witness :
    resolveThumbnail "cust.example" "v1" (some "tok_42")
        (some "https://cust.example/v1/thumbnails/thumbnail.jpg?time=1s") =
      some "https://cust.example/tok_42/thumbnails/thumbnail.jpg?time=1s" := by
  have h := (c8_thumbnail_rules "cust.example" "v1" "tok_42"
    "https://cust.example/v1/thumbnails/thumbnail.jpg?time=1s").1 (by decide) (by decide)
  rw [h]
  decide

/-- C5: when token issuance fails during playback-URL resolution, the
resolver falls back to the raw uid as the playback identifier for every
constructed URL (iframe, HLS, DASH, WHEP, and the default thumbnail), and the
failure is not propagated: the result does not depend on the failure message,
and resolution still produces an enriched record (by construction the
resolver returns a `Video` for every token outcome; the source catches the
rejection before it can escape). -/
theorem c5_token_failure_fallback (sub e : String) (v : Video) (hsub : sub ≠ "") :
    enhanceVideo (some sub) (.error e) v =
      enhanceVideo (some sub) (.error "other failure") v ∧
    (enhanceVideo (some sub) (.error e) v).playback = some
      { iframe := some (jsOr (v.playback.getD {}).iframe
          ("https://" ++ sub ++ "/" ++ v.uid ++ "/iframe")),
        hls := some (jsOr (v.playback.getD {}).hls
          ("https://" ++ sub ++ "/" ++ v.uid ++ "/manifest/video.m3u8")),
        dash := some (jsOr (v.playback.getD {}).dash
          ("https://" ++ sub ++ "/" ++ v.uid ++ "/manifest/video.mpd")),
        whep := some ("https://" ++ sub ++ "/" ++ v.uid ++ "/webRTC/play") } ∧
    (v.thumbnail = none →
      (enhanceVideo (some sub) (.error e) v).thumbnail = some (thumbDefault sub v.uid)) := by
  have hwhep : ("https://" ++ sub ++ "/" ++ v.uid ++ "/webRTC/play") ≠ "" :=
    url5_ne_empty _ _ _ _ _ (by decide)
  refine ⟨rfl, ?_, ?_⟩
  · simp [enhanceVideo, truthyStr, hsub, hwhep]
  · intro hth
    simp [enhanceVideo, truthyStr, hsub, resolveThumbnail, hth]

/-- C5 witness: resolving a concrete asset with no platform-supplied playback
data while token issuance fails yields uid-based URLs throughout. -/
theorem c5_token_failure_fallback_witness :
    (enhanceVideo (some "cust.example") (.error "boom") { uid := "v2" }).playback = some
      { iframe := some "https://cust.example/v2/iframe",
        hls := some "https://cust.example/v2/manifest/video.m3u8",
        dash := some "https://cust.example/v2/manifest/video.mpd",
        whep := some "https://cust.example/v2/webRTC/play" } ∧
    (enhanceVideo (some "cust.example") (.error "boom") { uid := "v2" }).thumbnail =
      some "https://cust.example/v2/thumbnails/thumbnail.jpg?time=1s&height=270" := by
  have h := c5_token_failure_fallback "cust.example" "boom" { uid := "v2" } (by decide)
  refine ⟨?_, ?_⟩
  · rw [h.2.1]
    decide
  · rw [h.2.2 rfl]
    decide

/-- Output of the list pipeline on a two-element library whose first item has
no creation timestamp and whose second was created before the epoch. -/
def c7CexOut : List Video :=
  listVideosGET none (fun _ => .error "")
    [{ uid := "m" }, { uid := "n", created := some (-1) }] [] (fun _ => [])

/-- C7 counterexample: the missing-timestamp item sorts first (its key is
epoch zero) while an item carrying a pre-epoch creation timestamp sorts after
it, so a missing-timestamp item does not sort after every item that has a
creation timestamp. -/
theorem c7_counterexample :
    c7CexOut.map Video.created = [none, some (-1)] ∧
    ¬ (∀ i j : Fin c7CexOut.length,
        (c7CexOut.get i).created = none → (c7CexOut.get j).created ≠ none →
        (j : ℕ) < (i : ℕ)) := by
  refine ⟨by decide, ?_⟩
  intro h
  have h01 := h ⟨0, by decide⟩ ⟨1, by decide⟩ (by decide) (by decide)
  simp at h01

/-- C7 (amended): the merged library output is sorted by creation timestamp
in descending order, a missing creation timestamp being treated as epoch
zero; consequently every item with a missing timestamp sorts after every item
whose timestamp is strictly positive (items whose timestamp is at or before
the epoch share or beat the missing items' key, so no ordering between them
is guaranteed). -/
theorem c7_sorted_desc (customerSubdomain : Option String)
    (tok : String → Except String String) (videos : List Video)
    (liveInputs : List LiveInput) (recs : String → List Video) :
    List.Sorted byCreatedDesc
      (listVideosGET customerSubdomain tok videos liveInputs recs) ∧
    (∀ i j : Fin (listVideosGET customerSubdomain tok videos liveInputs recs).length,
      ((listVideosGET customerSubdomain tok videos liveInputs recs).get i).created = none →
      0 < dateKey ((listVideosGET customerSubdomain tok videos liveInputs recs).get j) →
      (j : ℕ) < (i : ℕ)) := by
  have hs : List.Sorted byCreatedDesc
      (listVideosGET customerSubdomain tok videos liveInputs recs) := by
    unfold listVideosGET
    exact List.sorted_insertionSort byCreatedDesc _
  refine ⟨hs, ?_⟩
  intro i j hnone hpos
  have hkey : dateKey ((listVideosGET customerSubdomain tok videos liveInputs recs).get i) = 0 := by
    unfold dateKey
    rw [hnone]
  by_contra hle
  have hij : (i : ℕ) ≤ (j : ℕ) := by omega
  rcases eq_or_lt_of_le hij with heq | hlt
  · have : i = j := Fin.ext heq
    rw [← this] at hpos
    omega
  · have hp := List.pairwise_iff_get.mp hs i j hlt
    unfold byCreatedDesc at hp
    omega

/-- C7 witness: on a concrete library with one timestamped and one
timestamp-less item the output is sorted descending, and the timestamp-less
item lands strictly after the positively-timestamped one. -/
theorem c7_sorted_desc_witness :
    List.Sorted byCreatedDesc
      (listVideosGET none (fun _ => .error "")
        [{ uid := "a", created := some 5 }, { uid := "b" }] [] (fun _ => [])) ∧
    (0 : ℕ) < 1 := by
  have h := c7_sorted_desc none (fun _ => .error "")
    [{ uid := "a", created := some 5 }, { uid := "b" }] [] (fun _ => [])
  exact ⟨h.1, h.2 ⟨1, by decide⟩ ⟨0, by decide⟩ (by decide) (by decide)⟩

theorem enhanceVideo_uid (customerSubdomain : Option String)
    (tokenRes : Except String String) (v : Video) :
    (enhanceVideo customerSubdomain tokenRes v).uid = v.uid := by
  unfold enhanceVideo
  split <;> rfl

theorem enhanceRecording_uid (customerSubdomain : Option String)
    (tokenRes : Except String String) (r : Video) :
    (enhanceRecording customerSubdomain tokenRes r).uid = r.uid := by
  unfold enhanceRecording
  split <;> rfl

theorem dedupRecordings_uid_not_mem (videos allRecordings : List Video)
    (x : String) (hx : x ∈ videos.map Video.uid) :
    x ∉ (dedupRecordings videos allRecordings).map Video.uid := by
  unfold dedupRecordings
  intro hmem
  rcases List.mem_map.mp hmem with ⟨r, hrmem, huid⟩
  have hkept := (List.mem_filter.mp hrmem).2
  rw [Bool.not_eq_eq_eq_not, Bool.not_true, List.contains_eq_any_beq] at hkept
  simp only [List.any_eq_false, beq_iff_eq] at hkept
  exact hkept x hx (huid ▸ rfl)

/-- C6: in the merged library output, an id that occurs among the finished
uploads (whose ids are pairwise distinct, uploads being a set) and also among
the collected live-input recordings appears exactly once: every recording
sharing an id with a finished upload is dropped before the merge. -/
theorem c6_dedup_unique (customerSubdomain : Option String)
    (tok : String → Except String String) (videos : List Video)
    (liveInputs : List LiveInput) (recs : String → List Video) (x : String)
    (hnodup : (videos.map Video.uid).Nodup)
    (hx : x ∈ videos.map Video.uid)
    (_hr : x ∈ (collectRecordings liveInputs recs).map Video.uid) :
    ((listVideosGET customerSubdomain tok videos liveInputs recs).map Video.uid).count x
      = 1 := by
  unfold listVideosGET
  have hperm := (List.perm_insertionSort byCreatedDesc
    ((videos.map fun v => enhanceVideo customerSubdomain (tok v.uid) v) ++
      ((dedupRecordings videos (collectRecordings liveInputs recs)).map
        fun r => enhanceRecording customerSubdomain (tok r.uid) r))).map Video.uid
  rw [hperm.count_eq x, List.map_append, List.count_append]
  have hmv : ((videos.map fun v => enhanceVideo customerSubdomain (tok v.uid) v).map
      Video.uid) = videos.map Video.uid := by
    rw [List.map_map]
    exact List.map_congr_left fun v _ => enhanceVideo_uid customerSubdomain (tok v.uid) v
  have hmr : (((dedupRecordings videos (collectRecordings liveInputs recs)).map
      fun r => enhanceRecording customerSubdomain (tok r.uid) r).map Video.uid) =
      (dedupRecordings videos (collectRecordings liveInputs recs)).map Video.uid := by
    rw [List.map_map]
    exact List.map_congr_left fun r _ => enhanceRecording_uid customerSubdomain (tok r.uid) r
  rw [hmv, hmr]
  rw [List.count_eq_one_of_mem hnodup hx,
    List.count_eq_zero.mpr (dedupRecordings_uid_not_mem videos _ x hx)]

/-- C6 witness: a concrete id surfacing both as a finished upload and as a
ready recording of a live input appears exactly once in the merged output. -/
theorem c6_dedup_unique_witness :
    ((listVideosGET (some "cust.example") (fun _ => .error "")
        [{ uid := "a", created := some 5 }]
        [{ uid := some "li1" }]
        (fun _ => [{ uid := "a", readyToStream := some true },
                   { uid := "b", readyToStream := some true, created := some 9 }])).map
      Video.uid).count "a" = 1 := by
  exact c6_dedup_unique (some "cust.example") (fun _ => .error "")
    [{ uid := "a", created := some 5 }] [{ uid := some "li1" }]
    (fun _ => [{ uid := "a", readyToStream := some true },
               { uid := "b", readyToStream := some true, created := some 9 }])
    "a" (by decide) (by decide) (by decide)

theorem truthyStr_none : truthyStr none = none := rfl

theorem jsOr_jsOr (a : Option String) (b : String) (hb : b ≠ "") :
    jsOr (some (jsOr a b)) b = jsOr a b :=
  jsOr_some_of_ne _ _ (jsOr_ne_empty a b hb)

/-- An asset whose platform-supplied playback bundle already carries a
non-empty WHEP URL and whose thumbnail contains its raw id. -/
def c1CexVideo : Video :=
  { uid := "v1",
    thumbnail := some "https://pre.example/v1/thumbnails/thumbnail.jpg?extra=1",
    playback := some { iframe := none, hls := none, dash := none,
                       whep := some "https://third.example/whep0" } }

/-- C1 counterexample: resolving this asset with a configured subdomain
replaces its non-empty WHEP playback URL with a freshly constructed one
(overwriting a playback field that was non-empty on input), and resolving the
already-resolved record changes it again (the rewritten thumbnail no longer
contains the raw id, so a second resolution replaces it with the default
tokenized thumbnail), refuting `resolve(resolve(x)) == resolve(x)`. -/
theorem c1_counterexample :
    (c1CexVideo.playback.getD {}).whep = some "https://third.example/whep0" ∧
    ((enhanceVideo (some "cust.example") (.ok "tok42") c1CexVideo).playback.getD
        {}).whep = some "https://cust.example/tok42/webRTC/play" ∧
    ((enhanceVideo (some "cust.example") (.ok "tok42") c1CexVideo).playback.getD
        {}).whep ≠ (c1CexVideo.playback.getD {}).whep ∧
    enhanceVideo (some "cust.example") (.ok "tok42")
        (enhanceVideo (some "cust.example") (.ok "tok42") c1CexVideo) ≠
      enhanceVideo (some "cust.example") (.ok "tok42") c1CexVideo :=
  ⟨rfl, by decide, by decide, by decide⟩

/-- C1 (amended): the resolver never overwrites an embed/iframe, HLS, or DASH
playback field that is already non-empty on the input record; the WHEP field
enjoys no such protection (it is rebuilt whenever a subdomain is configured,
as the counterexample shows); and resolving an already-resolved record
changes nothing provided token issuance yields no token (with a token, the
thumbnail of an already-resolved record can be rewritten again). -/
theorem c1_no_overwrite_and_idempotent (customerSubdomain : Option String)
    (tokenRes : Except String String) (e : String) (v : Video) :
    (∀ u : String, u ≠ "" →
      ((v.playback.getD {}).iframe = some u →
        ((enhanceVideo customerSubdomain tokenRes v).playback.getD {}).iframe = some u) ∧
      ((v.playback.getD {}).hls = some u →
        ((enhanceVideo customerSubdomain tokenRes v).playback.getD {}).hls = some u) ∧
      ((v.playback.getD {}).dash = some u →
        ((enhanceVideo customerSubdomain tokenRes v).playback.getD {}).dash = some u)) ∧
    enhanceVideo customerSubdomain (.error e)
        (enhanceVideo customerSubdomain (.error e) v) =
      enhanceVideo customerSubdomain (.error e) v := by
  constructor
  · intro u hu
    rcases htr : truthyStr customerSubdomain with _ | sub
    · refine ⟨?_, ?_, ?_⟩ <;> intro h <;> simp [enhanceVideo, htr, h]
    · refine ⟨?_, ?_, ?_⟩ <;> intro h <;>
        simp [enhanceVideo, htr, h, jsOr_some_of_ne, hu]
  · rcases htr : truthyStr customerSubdomain with _ | sub
    · simp [enhanceVideo, htr]
    · have hne1 : ("https://" ++ sub ++ "/" ++ v.uid ++ "/iframe") ≠ "" :=
        url5_ne_empty _ _ _ _ _ (by decide)
      have hne2 : ("https://" ++ sub ++ "/" ++ v.uid ++ "/manifest/video.m3u8") ≠ "" :=
        url5_ne_empty _ _ _ _ _ (by decide)
      have hne3 : ("https://" ++ sub ++ "/" ++ v.uid ++ "/manifest/video.mpd") ≠ "" :=
        url5_ne_empty _ _ _ _ _ (by decide)
      have hnew : ("https://" ++ sub ++ "/" ++ v.uid ++ "/webRTC/play") ≠ "" :=
        url5_ne_empty _ _ _ _ _ (by decide)
      have hwhepEq := truthyStr_some_of_ne _ hnew
      simp [enhanceVideo, htr, truthyStr_none, hwhepEq, resolveThumbnail_none_idem,
            jsOr_jsOr, hne1, hne2, hne3]

/-- C1 witness: a concrete asset carrying a non-empty iframe URL keeps it
verbatim through resolution with a successfully issued token. -/
theorem c1_no_overwrite_and_idempotent_witness :
    ((enhanceVideo (some "cust.example") (.ok "tok42")
        { uid := "v1",
          playback := some { iframe := some "https://keep.example/ifr", hls := none,
                             dash := none, whep := none } }).playback.getD {}).iframe =
      some "https://keep.example/ifr" :=
  ((c1_no_overwrite_and_idempotent (some "cust.example") (.ok "tok42") "boom"
      { uid := "v1",
        playback := some { iframe := some "https://keep.example/ifr", hls := none,
                           dash := none, whep := none } }).1
    "https://keep.example/ifr" (by decide)).1 rfl
